import Mathlib

/-!
Verification development for the `tfreg` repository, a pair of Python scripts that
poll the Terraform registry HTTP API:

* `All-providers-download-since-beginning.py` — paginated full crawl
  (`get_all_providers`), per-item extraction (`get_provider_downloads`),
  report assembly (`generate_report`) and CSV sorting (`save_report`);
* `daily-downloads-this-yr.py` — per-provider fetch (`get_provider_downloads`),
  download extraction (`calculate_monthly_downloads`) and snapshot assembly
  (`generate_report`) over a fixed 7-entry provider mapping.

The HTTP layer is modelled as a response oracle passed in as a function; parsed
JSON payloads are modelled as structures whose `Option` fields stand for dict keys
that may be missing.  Python exceptions that the scripts catch (`KeyError`,
`ValueError` from tuple unpacking, `requests.exceptions.RequestException`) are
modelled by the corresponding `none` / error constructors, so every embedded
function is total.  The unbounded `while True` pagination loop is embedded with
explicit fuel; the theorems show the result is independent of the fuel once it is
at least the number of pages actually requested, which is the termination claim.
-/

namespace TFReg

open List

/-! ## Data model: full-crawl variant (`All-providers-download-since-beginning.py`) -/

/-- Parsed `attributes` object of one raw provider item from the list endpoint.
Each field models `attributes.get(key)`: `none` means the key is missing.
The Python source keys are `namespace`, `name`, `downloads`, `version`,
`published-at`, `tier`, `source`; `namespace` is a Lean keyword so the field is
called `nspace`. -/
structure FullAttrs where
  nspace : Option String
  name : Option String
  downloads : Option Int
  version : Option String
  published_at : Option String
  tier : Option String
  source : Option String
deriving DecidableEq, Repr

/-- One raw item from the paginated list response.  `provider['id']` and
`provider['attributes']` are accessed with `[]` (raising `KeyError` when missing,
which the script catches), so both are `Option`s here. -/
structure RawItem where
  id : Option String
  attributes : Option FullAttrs
deriving DecidableEq, Repr

/-- A `ProviderRecord` as built by the full-crawl `get_provider_downloads`:
one output row per registry provider. -/
structure ProviderRecord where
  id : String
  nspace : Option String
  name : Option String
  full_name : String
  downloads : Int
  version : Option String
  published_at : Option String
  tier : Option String
  source : Option String
deriving DecidableEq, Repr

/-- Python f-string rendering of an optional value: `f"{None}"` is `"None"`,
`f"{s}"` for a string `s` is `s` itself. -/
def pyStr : Option String → String
  | none => "None"
  | some s => s

/-- Embedding of the full-crawl `TerraformRegistryStats.get_provider_downloads`
(lines 54–76): reads `provider['id']` and `provider['attributes']` (any missing
key raises and is caught, returning `None`), then builds the record with
`attributes.get(...)` lookups, `downloads` defaulting to `0` and `full_name`
being the f-string `f"{namespace}/{name}"`. -/
def get_provider_downloads_full (provider : RawItem) : Option ProviderRecord :=
  match provider.id, provider.attributes with
  | some provider_id, some attrs =>
      some {
        id := provider_id
        nspace := attrs.nspace
        name := attrs.name
        full_name := pyStr attrs.nspace ++ "/" ++ pyStr attrs.name
        downloads := attrs.downloads.getD 0
        version := attrs.version
        published_at := attrs.published_at
        tier := attrs.tier
        source := attrs.source }
  | _, _ => none

/-- Embedding of the record-assembly loop of the full-crawl `generate_report`
(lines 86–94): for each fetched provider, append `get_provider_downloads(provider)`
to the report when it is truthy (a produced record dict is non-empty, so truthy
exactly when not `None`). -/
def generate_report_full (providers : List RawItem) : List ProviderRecord :=
  providers.filterMap get_provider_downloads_full

/-! ## Pagination loop (`get_all_providers`, lines 25–52) -/

/-- Outcome of one page request `GET /providers?page[number]=N&page[size]=50`:
`fail` models any `requests.exceptions.RequestException` (transport error,
`raise_for_status` on an HTTP error status, or JSON decoding failure);
`ok payload` models a decoded JSON body, where `payload` is `data.get('data')`
(`none` when the `data` key is missing). -/
inductive PageResult (α : Type) where
  | fail : PageResult α
  | ok : Option (List α) → PageResult α
deriving DecidableEq, Repr

/-- Observable result of one run of the pagination loop: the accumulated
`providers` list, the number of page requests issued, and the number of
`time.sleep(0.5)` calls performed (one per successful non-empty page, i.e. one
between any two consecutive page requests). -/
structure CrawlResult (α : Type) where
  providers : List α
  requests : Nat
  sleeps : Nat
deriving DecidableEq, Repr

/-- One `while True` iteration decides to stop when the request failed
(`except RequestException: break`) or when `not data.get('data')` holds, i.e.
the `data` key is missing or the list is empty (Python falsiness). -/
def stopsCrawl : PageResult α → Bool
  | .ok (some (_ :: _)) => false
  | _ => true

/-- Fuel-indexed embedding of the `while True` loop of `get_all_providers`,
started at page number `page`.  Each iteration issues one request; on a stop
condition it breaks having made that one request and no sleep; otherwise it
appends the page's items (`providers.extend(data['data'])`), advances the page
counter and performs one `time.sleep(0.5)` before the next request.  Fuel `0` is
an artificial cutoff never reached when a stopping page exists within fuel. -/
def getAllProvidersFrom (resp : Nat → PageResult α) : Nat → Nat → CrawlResult α
  | 0, _ => ⟨[], 0, 0⟩
  | fuel + 1, page =>
    match resp page with
    | .fail => ⟨[], 1, 0⟩
    | .ok none => ⟨[], 1, 0⟩
    | .ok (some []) => ⟨[], 1, 0⟩
    | .ok (some (x :: xs)) =>
        let rest := getAllProvidersFrom resp fuel (page + 1)
        ⟨(x :: xs) ++ rest.providers, rest.requests + 1, rest.sleeps + 1⟩

/-- Embedding of `get_all_providers` (lines 25–52): run the pagination loop from
page `1` and return the accumulated providers list. -/
def get_all_providers (resp : Nat → PageResult α) (fuel : Nat) : List α :=
  (getAllProvidersFrom resp fuel 1).providers

/-! ## CSV sorting (`save_report`, lines 119–128)

`df.sort_values('downloads', ascending=False, inplace=True)` at line 121 is
called with the default `kind='quicksort'` (numpy introsort).  pandas and numpy
document this kind as NOT stable — only `mergesort`/`stable` are — so the call
guarantees exactly this: the rows become some permutation of the input that is
sorted descending on `downloads`, with the relative order of tied rows
unspecified.  The call is therefore modelled by this documented contract: a
sorting function (`kernel`) about which only `SortsByDownloadsDesc` is assumed
stands for the library sort, and the CSV rows of `save_report` are
`kernel report_data`.  `revSortKernel` below is one concrete function satisfying
the contract; it is used to exhibit that the contract does not force tied rows
to keep their input order.  (The JSON dump, file naming and logging are I/O
collaborators outside the model.) -/

/-- Boolean ascending comparison on the `downloads` column. -/
def downloadsLe (a b : ProviderRecord) : Bool := a.downloads ≤ b.downloads

/-- The documented contract of `df.sort_values('downloads', ascending=False)`
with the default `kind='quicksort'`: for every input, the output rows are a
permutation of the input rows, sorted descending on `downloads`.  Tie order is
not part of the contract. -/
def SortsByDownloadsDesc (kernel : List ProviderRecord → List ProviderRecord) : Prop :=
  ∀ rows : List ProviderRecord,
    kernel rows ~ rows
    ∧ (kernel rows).Pairwise (fun a b => b.downloads ≤ a.downloads)

/-- One concrete sorting function satisfying `SortsByDownloadsDesc`: a stable
ascending mergesort followed by reversal.  Its output is sorted descending and
a permutation of the input, but rows with equal `downloads` come out in
reversed input order. -/
def revSortKernel (rows : List ProviderRecord) : List ProviderRecord :=
  (rows.mergeSort downloadsLe).reverse

/-! ## Data model: daily variant (`daily-downloads-this-yr.py`) -/

/-- Parsed `attributes` object of the detail response; `downloads` is
`attributes.get('downloads', 0)`'s key, `none` when missing. -/
structure DailyAttrs where
  downloads : Option Int
deriving DecidableEq, Repr

/-- Parsed `data` object of the detail response; `attributes` key may be
missing. -/
structure DataObj where
  attributes : Option DailyAttrs
deriving DecidableEq, Repr

/-- Parsed JSON body of the detail response; the `data` key may be missing. -/
structure DailyBody where
  data : Option DataObj
deriving DecidableEq, Repr

/-- Outcome of `GET /providers/{namespace}/{name}`: `fail` models a
`requests.exceptions.RequestException`; `ok body` a decoded JSON body. -/
inductive FetchOutcome where
  | fail : FetchOutcome
  | ok : DailyBody → FetchOutcome
deriving DecidableEq, Repr

/-- The dict `{'downloads': downloads}` returned by the daily
`get_provider_downloads` on success. -/
structure DownloadsDict where
  downloads : Int
deriving DecidableEq, Repr

/-- Character-level embedding of Python `str.split('/')`: split on every `'/'`,
keeping empty parts. -/
def splitSlashAux : List Char → List Char → List (List Char)
  | [], acc => [acc.reverse]
  | c :: cs, acc =>
      if c = '/' then acc.reverse :: splitSlashAux cs []
      else splitSlashAux cs (c :: acc)

/-- Embedding of `provider_path.split('/')`. -/
def pySplitSlash (s : String) : List String :=
  (splitSlashAux s.toList []).map List.asString

/-- Embedding of the daily `TerraformRegistryStats.get_provider_downloads`
(lines 32–56).  `namespace, name = provider_path.split('/')` raises `ValueError`
unless the split has exactly two parts (caught by the generic `except`, returning
`None`).  The request outcome oracle `resp` is keyed by the namespace and name
that form the URL.  On success the body must have `'data' in data and
'attributes' in data['data']`; then the result is
`{'downloads': data['data']['attributes'].get('downloads', 0)}`, otherwise
`None`.  All exception paths return `None`: nothing is raised past this
boundary. -/
def get_provider_downloads_daily (resp : String → String → FetchOutcome)
    (provider_path : String) : Option DownloadsDict :=
  match pySplitSlash provider_path with
  | [nspace, name] =>
      match resp nspace name with
      | .fail => none
      | .ok body =>
          match body.data with
          | some dobj =>
              match dobj.attributes with
              | some attrs => some ⟨attrs.downloads.getD 0⟩
              | none => none
          | none => none
  | _ => none

/-- Embedding of `calculate_monthly_downloads` (lines 58–69): `0` for a falsy
argument, else `data.get('downloads', 0)` (the dict always carries the key). -/
def calculate_monthly_downloads : Option DownloadsDict → Int
  | none => 0
  | some d => d.downloads

/-- One `DailySnapshot` value of the daily report. -/
structure DailySnapshot where
  provider : String
  total_downloads : Int
  timestamp : String
  error : Option String
deriving DecidableEq, Repr

/-- The fixed provider mapping `self.providers` (lines 22–30), in insertion
order (Python dicts iterate in insertion order). -/
def providersMap : List (String × String) :=
  [("aws", "hashicorp/aws"),
   ("azure", "hashicorp/azurerm"),
   ("gcp", "hashicorp/google"),
   ("datadog", "datadog/datadog"),
   ("splunk", "splunk/splunk"),
   ("databricks", "databricks/databricks"),
   ("elastic", "elastic/ec")]

/-- The snapshot recorded for one provider path by the daily `generate_report`
body (lines 79–96): when `get_provider_downloads` returns a (truthy, non-empty)
dict, a populated snapshot with `total_downloads =
calculate_monthly_downloads(data)`; when it returns `None`, the error-flagged
snapshot with `total_downloads = 0` and `error = 'Failed to fetch data'`.
`t` is the `datetime.now().isoformat()` string of that iteration. -/
def snapFor (resp : String → String → FetchOutcome) (provider_path : String)
    (t : String) : DailySnapshot :=
  match get_provider_downloads_daily resp provider_path with
  | some d =>
      { provider := provider_path
        total_downloads := calculate_monthly_downloads (some d)
        timestamp := t
        error := none }
  | none =>
      { provider := provider_path
        total_downloads := 0
        timestamp := t
        error := some "Failed to fetch data" }

/-- The iteration of the daily `generate_report` over the (ordered) provider
mapping, threading the iteration index `i` into the timestamp oracle `ts`
(one `datetime.now()` per iteration).  Each iteration also performs one
`time.sleep(1)` regardless of success. -/
def generateReportDailyAux (resp : String → String → FetchOutcome)
    (ts : Nat → String) : List (String × String) → Nat → List (String × DailySnapshot)
  | [], _ => []
  | (provider_name, provider_path) :: rest, i =>
      (provider_name, snapFor resp provider_path (ts i)) ::
        generateReportDailyAux resp ts rest (i + 1)

/-- Embedding of the daily `generate_report` (lines 71–101): the report mapping,
as the ordered association list built over `providersMap`. -/
def generate_report_daily (resp : String → String → FetchOutcome)
    (ts : Nat → String) : List (String × DailySnapshot) :=
  generateReportDailyAux resp ts providersMap 0

/-- A `ProviderRecord` with a given `id` and `downloads` and all optional fields
absent; used to state concrete sorting examples compactly. -/
def mkRec (i : String) (d : Int) : ProviderRecord :=
  { id := i, nspace := none, name := none, full_name := "", downloads := d,
    version := none, published_at := none, tier := none, source := none }

/-- A report of 17 records with pairwise-equal `downloads` (all `0`),
distinguished by `id`.  17 rows exceed numpy's insertion-sort threshold, the
regime in which the real `quicksort` kind partitions the array and swaps tied
entries; this is the failing input on which stability is not guaranteed. -/
def tiedRows : List ProviderRecord :=
  [mkRec "0" 0, mkRec "1" 0, mkRec "2" 0, mkRec "3" 0, mkRec "4" 0, mkRec "5" 0,
   mkRec "6" 0, mkRec "7" 0, mkRec "8" 0, mkRec "9" 0, mkRec "10" 0, mkRec "11" 0,
   mkRec "12" 0, mkRec "13" 0, mkRec "14" 0, mkRec "15" 0, mkRec "16" 0]

/-! ## Helper lemmas -/

/-- Characterization of the pagination loop: if the `k` pages
`page, …, page + k - 1` all succeed with non-empty data and page `page + k`
stops the loop (failure, missing `data` key, or empty data), then for any fuel
of at least `k + 1` the loop returns the concatenation of those `k` pages in
page order, having issued `k + 1` requests and slept `k` times. -/
theorem getAllProvidersFrom_spec (resp : Nat → PageResult α) (pageItems : Nat → List α) :
    ∀ (k page fuel : Nat),
      (∀ i, page ≤ i → i < page + k →
        resp i = PageResult.ok (some (pageItems i)) ∧ pageItems i ≠ []) →
      stopsCrawl (resp (page + k)) = true →
      k + 1 ≤ fuel →
      getAllProvidersFrom resp fuel page =
        ⟨((List.range' page k).map pageItems).flatten, k + 1, k⟩ := by
  intro k
  induction k with
  | zero =>
      intro page fuel hprev hstop hfuel
      obtain ⟨f, rfl⟩ : ∃ f, fuel = f + 1 := ⟨fuel - 1, by omega⟩
      simp only [Nat.add_zero] at hstop
      cases hresp : resp page with
      | fail => simp [getAllProvidersFrom, hresp]
      | ok payload =>
          cases payload with
          | none => simp [getAllProvidersFrom, hresp]
          | some items =>
              cases items with
              | nil => simp [getAllProvidersFrom, hresp]
              | cons x xs =>
                  rw [hresp] at hstop
                  simp [stopsCrawl] at hstop
  | succ k ih =>
      intro page fuel hprev hstop hfuel
      obtain ⟨f, rfl⟩ : ∃ f, fuel = f + 1 := ⟨fuel - 1, by omega⟩
      obtain ⟨hpage, hne⟩ := hprev page (Nat.le_refl _) (by omega)
      have hrest : getAllProvidersFrom resp f (page + 1) =
          ⟨((List.range' (page + 1) k).map pageItems).flatten, k + 1, k⟩ := by
        apply ih
        · intro i h1 h2
          exact hprev i (by omega) (by omega)
        · have e : page + 1 + k = page + (k + 1) := by omega
          rw [e]
          exact hstop
        · omega
      cases hpi : pageItems page with
      | nil => exact absurd hpi hne
      | cons x xs =>
          rw [hpi] at hpage
          simp [getAllProvidersFrom, hpage, hrest, List.range'_succ, hpi]

/-! ## Claim theorems -/

/-- C1: for every paginated response sequence whose first stopping page `N` is a
page with an empty data array (every earlier page succeeding with non-empty
data), `get_all_providers` terminates — its value is the same for every
sufficient fuel — and returns exactly the concatenation of the items of pages
`1, …, N - 1`, in page order. -/
theorem C1_get_all_providers_concat_of_pages
    (resp : Nat → PageResult α) (pageItems : Nat → List α) (N fuel : Nat)
    (hN1 : 1 ≤ N)
    (hprev : ∀ i, 1 ≤ i → i < N →
      resp i = PageResult.ok (some (pageItems i)) ∧ pageItems i ≠ [])
    (hN : resp N = PageResult.ok (some []))
    (hfuel : N ≤ fuel) :
    get_all_providers resp fuel = ((List.range' 1 (N - 1)).map pageItems).flatten := by
  have h := getAllProvidersFrom_spec resp pageItems (N - 1) 1 fuel
    (fun i h1 h2 => hprev i h1 (by omega))
    (by have e : 1 + (N - 1) = N := by omega
        rw [e, hN]
        rfl)
    (by omega)
  unfold get_all_providers
  rw [h]

/-- C1 witness: pages `[7, 8]` then empty at page 2, fuel 2. -/
theorem C1_witness :
    get_all_providers
      (fun p => if p = 1 then PageResult.ok (some [7, 8]) else PageResult.ok (some [])) 2
      = [7, 8] :=
  (C1_get_all_providers_concat_of_pages
    (fun p => if p = 1 then PageResult.ok (some [7, 8]) else PageResult.ok (some []))
    (fun _ => [7, 8]) 2 2 (by decide)
    (fun i h1 h2 => by
      have hi : i = 1 := by omega
      subst hi
      exact ⟨rfl, by decide⟩)
    rfl (by decide)).trans (by decide)

/-- C4: if pages `1, …, N - 1` succeed with non-empty data and the request for
page `N` fails, the crawl returns exactly the items accumulated from the pages
before the failure, having issued exactly `N` requests (so no page beyond `N` is
requested); moreover the outcome is unchanged under any modification of the
response sequence strictly beyond page `N`. -/
theorem C4_crawl_stops_on_failure
    (resp : Nat → PageResult α) (pageItems : Nat → List α) (N fuel : Nat)
    (hN1 : 1 ≤ N)
    (hprev : ∀ i, 1 ≤ i → i < N →
      resp i = PageResult.ok (some (pageItems i)) ∧ pageItems i ≠ [])
    (hN : resp N = PageResult.fail)
    (hfuel : N ≤ fuel) :
    getAllProvidersFrom resp fuel 1 =
      ⟨((List.range' 1 (N - 1)).map pageItems).flatten, N, N - 1⟩
    ∧ ∀ resp2 : Nat → PageResult α, (∀ i, i ≤ N → resp2 i = resp i) →
        getAllProvidersFrom resp2 fuel 1 = getAllProvidersFrom resp fuel 1 := by
  have e : 1 + (N - 1) = N := by omega
  have h : getAllProvidersFrom resp fuel 1 =
      ⟨((List.range' 1 (N - 1)).map pageItems).flatten, (N - 1) + 1, N - 1⟩ :=
    getAllProvidersFrom_spec resp pageItems (N - 1) 1 fuel
      (fun i h1 h2 => hprev i h1 (by omega))
      (by rw [e, hN]; rfl)
      (by omega)
  constructor
  · rw [h]
    have eN : (N - 1) + 1 = N := by omega
    rw [eN]
  · intro resp2 hagree
    have h2 : getAllProvidersFrom resp2 fuel 1 =
        ⟨((List.range' 1 (N - 1)).map pageItems).flatten, (N - 1) + 1, N - 1⟩ :=
      getAllProvidersFrom_spec resp2 pageItems (N - 1) 1 fuel
        (fun i h1 hi => by
          rw [hagree i (by omega)]
          exact hprev i h1 (by omega))
        (by rw [e, hagree N (Nat.le_refl _), hN]; rfl)
        (by omega)
    rw [h, h2]

/-- C4 witness: page 1 returns `[9]`, page 2 fails, fuel 5. -/
theorem C4_witness :
    getAllProvidersFrom
      (fun p => if p = 1 then PageResult.ok (some [9]) else PageResult.fail) 5 1 =
      ⟨[9], 2, 1⟩ :=
  ((C4_crawl_stops_on_failure
    (fun p => if p = 1 then PageResult.ok (some [9]) else PageResult.fail)
    (fun _ => [9]) 2 5 (by decide)
    (fun i h1 h2 => by
      have hi : i = 1 := by omega
      subst hi
      exact ⟨rfl, by decide⟩)
    rfl (by decide)).1).trans (by decide)

/-- C9: under any terminating response sequence (first stopping page `N`), the
number of `time.sleep(0.5)` calls is exactly the number of page requests minus
one — one fixed delay between any two consecutive page requests; and in the
concrete scenario where page 1 returns 50 items and page 2 returns an empty
data array, the accumulated record count is 50 and exactly 1 delay elapsed. -/
theorem C9_one_delay_between_page_requests :
    (∀ (α : Type) (resp : Nat → PageResult α) (pageItems : Nat → List α) (N fuel : Nat),
      1 ≤ N →
      (∀ i, 1 ≤ i → i < N →
        resp i = PageResult.ok (some (pageItems i)) ∧ pageItems i ≠ []) →
      stopsCrawl (resp N) = true →
      N ≤ fuel →
      (getAllProvidersFrom resp fuel 1).sleeps + 1 = (getAllProvidersFrom resp fuel 1).requests)
    ∧ (getAllProvidersFrom
        (fun p => if p = 1 then PageResult.ok (some (List.range 50))
                  else PageResult.ok (some [])) 2 1).providers.length = 50
    ∧ (getAllProvidersFrom
        (fun p => if p = 1 then PageResult.ok (some (List.range 50))
                  else PageResult.ok (some [])) 2 1).sleeps = 1 := by
  refine ⟨?_, by decide, by decide⟩
  intro α resp pageItems N fuel hN1 hprev hstop hfuel
  have h := getAllProvidersFrom_spec resp pageItems (N - 1) 1 fuel
    (fun i h1 h2 => hprev i h1 (by omega))
    (by have e : 1 + (N - 1) = N := by omega
        rw [e]
        exact hstop)
    (by omega)
  rw [h]

/-- Transitivity of the ascending `downloads` comparison. -/
theorem downloadsLe_trans :
    ∀ a b c : ProviderRecord, downloadsLe a b → downloadsLe b c → downloadsLe a c := by
  intro a b c
  simp only [downloadsLe, decide_eq_true_eq]
  omega

/-- Totality of the ascending `downloads` comparison. -/
theorem downloadsLe_total :
    ∀ a b : ProviderRecord, downloadsLe a b || downloadsLe b a := by
  intro a b
  simp only [downloadsLe, Bool.or_eq_true, decide_eq_true_eq]
  omega

/-- `revSortKernel` satisfies the documented contract of the `sort_values`
call: its output is a permutation of the input, sorted descending on
`downloads`. -/
theorem revSortKernel_conforms : SortsByDownloadsDesc revSortKernel := by
  intro rows
  constructor
  · exact ((rows.mergeSort downloadsLe).reverse_perm).trans
      (List.mergeSort_perm rows downloadsLe)
  · rw [revSortKernel, List.pairwise_reverse]
    exact (List.sorted_mergeSort downloadsLe_trans downloadsLe_total rows).imp
      (fun h => by simpa [downloadsLe] using h)

/-- C2: what the `sort_values` call at line 121 does and does not guarantee.
Every sorting function satisfying its documented contract (descending
permutation, tie order unspecified — the default `kind='quicksort'` is not
stable) produces exactly the claimed `[50, 5, 1]` order on the tie-free input
downloads `[5, 50, 1]`; but the contract does not make the sort stable:
`revSortKernel` satisfies it while emitting the tied records `"0"` and `"1"` of
`tiedRows` (17 rows of equal `downloads`, beyond numpy's insertion-sort
regime) out of their input order.  The claim's universal stability conjunct is
therefore not ensured by the code, refuting it at this failing input. -/
theorem C2_sort_contract_desc_but_not_stable :
    (∀ kernel : List ProviderRecord → List ProviderRecord,
      SortsByDownloadsDesc kernel →
      kernel [mkRec "a" 5, mkRec "b" 50, mkRec "c" 1]
        = [mkRec "b" 50, mkRec "a" 5, mkRec "c" 1])
    ∧ SortsByDownloadsDesc revSortKernel
    ∧ (mkRec "0" 0).downloads = (mkRec "1" 0).downloads
    ∧ [mkRec "0" 0, mkRec "1" 0] <+ tiedRows
    ∧ ¬ [mkRec "0" 0, mkRec "1" 0] <+ revSortKernel tiedRows := by
  refine ⟨?_, revSortKernel_conforms, rfl, by decide, ?_⟩
  · intro kernel hk
    obtain ⟨hperm, hpair⟩ := hk [mkRec "a" 5, mkRec "b" 50, mkRec "c" 1]
    obtain ⟨out, hout⟩ :
        ∃ out, kernel [mkRec "a" 5, mkRec "b" 50, mkRec "c" 1] = out := ⟨_, rfl⟩
    rw [hout] at hperm hpair
    rw [hout]
    obtain ⟨x, y, z, rfl⟩ := List.length_eq_three.mp hperm.length_eq
    have hx : x ∈ [mkRec "a" 5, mkRec "b" 50, mkRec "c" 1] := hperm.subset (by simp)
    have hy : y ∈ [mkRec "a" 5, mkRec "b" 50, mkRec "c" 1] := hperm.subset (by simp)
    have hz : z ∈ [mkRec "a" 5, mkRec "b" 50, mkRec "c" 1] := hperm.subset (by simp)
    simp only [List.mem_cons, List.not_mem_nil, or_false] at hx hy hz
    rcases hx with rfl | rfl | rfl <;> rcases hy with rfl | rfl | rfl <;>
      rcases hz with rfl | rfl | rfl <;>
      first
        | rfl
        | exact absurd hperm (by decide)
        | exact absurd hpair (by decide)
  · have he : revSortKernel tiedRows = tiedRows.reverse := by
      rw [revSortKernel, List.mergeSort_of_sorted (by decide)]
    rw [he]
    decide

/-- C2 witness: the determined tie-free example, evaluated through the concrete
conforming kernel `revSortKernel`. -/
theorem C2_witness :
    revSortKernel [mkRec "a" 5, mkRec "b" 50, mkRec "c" 1]
      = [mkRec "b" 50, mkRec "a" 5, mkRec "c" 1] :=
  C2_sort_contract_desc_but_not_stable.1 revSortKernel revSortKernel_conforms

/-- C9 witness: the general delay count applied to the two-page scenario. -/
theorem C9_witness :
    (getAllProvidersFrom
      (fun p => if p = 1 then PageResult.ok (some [3]) else PageResult.ok (some [])) 4 1).sleeps + 1
    = (getAllProvidersFrom
      (fun p => if p = 1 then PageResult.ok (some [3]) else PageResult.ok (some [])) 4 1).requests :=
  C9_one_delay_between_page_requests.1 Nat
    (fun p => if p = 1 then PageResult.ok (some [3]) else PageResult.ok (some []))
    (fun _ => [3]) 2 4 (by decide)
    (fun i h1 h2 => by
      have hi : i = 1 := by omega
      subst hi
      exact ⟨rfl, by decide⟩)
    rfl (by decide)

/-- Evaluation of the path split for the concrete `aws` provider path. -/
theorem pySplitSlash_hashicorp_aws : pySplitSlash "hashicorp/aws" = ["hashicorp", "aws"] := by
  decide

/-- The snapshot recorded for a provider path always carries that path in its
`provider` field. -/
theorem snapFor_provider (resp : String → String → FetchOutcome) (ppath t : String) :
    (snapFor resp ppath t).provider = ppath := by
  cases h : get_provider_downloads_daily resp ppath <;> simp [snapFor, h]

/-- Case analysis of the snapshot recorded for a provider path: either the fetch
succeeded and the snapshot carries its downloads value with no error, or the
fetch returned `None` and the snapshot is the error-flagged one. -/
theorem snapFor_cases (resp : String → String → FetchOutcome) (ppath t : String) :
    (∃ d, get_provider_downloads_daily resp ppath = some d
        ∧ (snapFor resp ppath t).total_downloads = d.downloads
        ∧ (snapFor resp ppath t).error = none)
    ∨ (get_provider_downloads_daily resp ppath = none
        ∧ (snapFor resp ppath t).total_downloads = 0
        ∧ (snapFor resp ppath t).error = some "Failed to fetch data") := by
  cases h : get_provider_downloads_daily resp ppath with
  | none => exact Or.inr ⟨rfl, by simp [snapFor, h], by simp [snapFor, h]⟩
  | some d =>
      exact Or.inl ⟨d, rfl, by simp [snapFor, h, calculate_monthly_downloads],
        by simp [snapFor, h]⟩

/-- A recorded snapshot carries an error exactly when the fetch returned
`None`. -/
theorem snapFor_error_iff (resp : String → String → FetchOutcome) (ppath t : String) :
    (snapFor resp ppath t).error ≠ none ↔
      get_provider_downloads_daily resp ppath = none := by
  cases h : get_provider_downloads_daily resp ppath <;> simp [snapFor, h]

/-- C3: for every key of the fixed 7-entry provider mapping, the daily report
records exactly one snapshot under that key; it is a populated snapshot (with
`provider` the mapped path and `total_downloads` the fetched downloads value)
when the fetch returns a result, and the error-flagged snapshot
(`total_downloads = 0`, `error = "Failed to fetch data"`) when the fetch
returns `None`. -/
theorem C3_daily_report_one_snapshot_per_key
    (resp : String → String → FetchOutcome) (ts : Nat → String)
    (provider_name provider_path : String)
    (hmem : (provider_name, provider_path) ∈ providersMap) :
    ∃ s : DailySnapshot,
      (generate_report_daily resp ts).filter (fun e => e.1 == provider_name)
        = [(provider_name, s)]
      ∧ s.provider = provider_path
      ∧ ((∃ d, get_provider_downloads_daily resp provider_path = some d
            ∧ s.total_downloads = d.downloads ∧ s.error = none)
         ∨ (get_provider_downloads_daily resp provider_path = none
            ∧ s.total_downloads = 0 ∧ s.error = some "Failed to fetch data")) := by
  simp only [providersMap, List.mem_cons, List.not_mem_nil, or_false,
    Prod.mk.injEq] at hmem
  rcases hmem with ⟨rfl, rfl⟩ | ⟨rfl, rfl⟩ | ⟨rfl, rfl⟩ | ⟨rfl, rfl⟩ |
    ⟨rfl, rfl⟩ | ⟨rfl, rfl⟩ | ⟨rfl, rfl⟩
  · exact ⟨snapFor resp "hashicorp/aws" (ts 0), rfl,
      snapFor_provider resp "hashicorp/aws" (ts 0), snapFor_cases resp "hashicorp/aws" (ts 0)⟩
  · exact ⟨snapFor resp "hashicorp/azurerm" (ts 1), rfl,
      snapFor_provider resp "hashicorp/azurerm" (ts 1),
      snapFor_cases resp "hashicorp/azurerm" (ts 1)⟩
  · exact ⟨snapFor resp "hashicorp/google" (ts 2), rfl,
      snapFor_provider resp "hashicorp/google" (ts 2),
      snapFor_cases resp "hashicorp/google" (ts 2)⟩
  · exact ⟨snapFor resp "datadog/datadog" (ts 3), rfl,
      snapFor_provider resp "datadog/datadog" (ts 3),
      snapFor_cases resp "datadog/datadog" (ts 3)⟩
  · exact ⟨snapFor resp "splunk/splunk" (ts 4), rfl,
      snapFor_provider resp "splunk/splunk" (ts 4),
      snapFor_cases resp "splunk/splunk" (ts 4)⟩
  · exact ⟨snapFor resp "databricks/databricks" (ts 5), rfl,
      snapFor_provider resp "databricks/databricks" (ts 5),
      snapFor_cases resp "databricks/databricks" (ts 5)⟩
  · exact ⟨snapFor resp "elastic/ec" (ts 6), rfl,
      snapFor_provider resp "elastic/ec" (ts 6), snapFor_cases resp "elastic/ec" (ts 6)⟩

/-- C3 witness: under the mocked detail response
`{data: {attributes: {downloads: 12345}}}` the `"aws"` entry of the report is a
single populated snapshot for `hashicorp/aws`. -/
theorem C3_witness :
    ∃ s : DailySnapshot,
      (generate_report_daily (fun _ _ => FetchOutcome.ok ⟨some ⟨some ⟨some 12345⟩⟩⟩)
        (fun _ => "T")).filter (fun e => e.1 == "aws") = [("aws", s)]
      ∧ s.provider = "hashicorp/aws"
      ∧ ((∃ d, get_provider_downloads_daily
              (fun _ _ => FetchOutcome.ok ⟨some ⟨some ⟨some 12345⟩⟩⟩) "hashicorp/aws" = some d
            ∧ s.total_downloads = d.downloads ∧ s.error = none)
         ∨ (get_provider_downloads_daily
              (fun _ _ => FetchOutcome.ok ⟨some ⟨some ⟨some 12345⟩⟩⟩) "hashicorp/aws" = none
            ∧ s.total_downloads = 0 ∧ s.error = some "Failed to fetch data")) :=
  C3_daily_report_one_snapshot_per_key
    (fun _ _ => FetchOutcome.ok ⟨some ⟨some ⟨some 12345⟩⟩⟩) (fun _ => "T")
    "aws" "hashicorp/aws" (by decide)

/-- C10: a daily report entry carries the error field exactly when the fetch
returned `None` for its provider path; and a well-formed response containing
`data.attributes` but lacking a `downloads` key yields a success result
`{downloads: 0}`, hence a success snapshot with `total_downloads = 0` and no
error field. -/
theorem C10_error_iff_fetch_absent :
    (∀ (resp : String → String → FetchOutcome) (ts : Nat → String)
        (provider_name provider_path : String) (s : DailySnapshot),
      (provider_name, provider_path) ∈ providersMap →
      (provider_name, s) ∈ generate_report_daily resp ts →
      (s.error ≠ none ↔ get_provider_downloads_daily resp provider_path = none))
    ∧ (∀ resp : String → String → FetchOutcome,
        resp "hashicorp" "aws" = FetchOutcome.ok ⟨some ⟨some ⟨none⟩⟩⟩ →
        get_provider_downloads_daily resp "hashicorp/aws" = some ⟨0⟩
        ∧ ∀ ts : Nat → String, ∃ s : DailySnapshot,
            ("aws", s) ∈ generate_report_daily resp ts
            ∧ s.total_downloads = 0 ∧ s.error = none) := by
  constructor
  · intro resp ts provider_name provider_path s hmem hs
    simp only [providersMap, List.mem_cons, List.not_mem_nil, or_false,
      Prod.mk.injEq] at hmem
    simp only [generate_report_daily, generateReportDailyAux, providersMap,
      List.mem_cons, List.not_mem_nil, or_false, Prod.mk.injEq] at hs
    rcases hmem with ⟨rfl, rfl⟩ | ⟨rfl, rfl⟩ | ⟨rfl, rfl⟩ | ⟨rfl, rfl⟩ |
      ⟨rfl, rfl⟩ | ⟨rfl, rfl⟩ | ⟨rfl, rfl⟩ <;>
      simp only [String.reduceEq, false_and, or_false, false_or, true_and] at hs <;>
      (obtain rfl := hs; exact snapFor_error_iff resp _ _)
  · intro resp hresp
    have hget : get_provider_downloads_daily resp "hashicorp/aws" = some ⟨0⟩ := by
      simp [get_provider_downloads_daily, pySplitSlash_hashicorp_aws, hresp]
    refine ⟨hget, fun ts => ⟨snapFor resp "hashicorp/aws" (ts 0), ?_, ?_, ?_⟩⟩
    · exact List.mem_cons_self _ _
    · simp [snapFor, hget, calculate_monthly_downloads]
    · simp [snapFor, hget]

/-- C10 witness: with every request failing, the `"aws"` entry is the
error-flagged snapshot and the equivalence holds concretely. -/
theorem C10_witness :
    (DailySnapshot.error ⟨"hashicorp/aws", 0, "T", some "Failed to fetch data"⟩ ≠ none ↔
      get_provider_downloads_daily (fun _ _ => FetchOutcome.fail) "hashicorp/aws" = none) :=
  C10_error_iff_fetch_absent.1 (fun _ _ => FetchOutcome.fail) (fun _ => "T")
    "aws" "hashicorp/aws" ⟨"hashicorp/aws", 0, "T", some "Failed to fetch data"⟩
    (by decide) (by decide)

/-- C5: the daily `get_provider_downloads` returns `None` on a transport/HTTP
error and on any response body lacking `data.attributes`; it is a total
function (every exception path is a `none` return, nothing escapes the
boundary), and any returned result is a `{downloads: integer}` dict. -/
theorem C5_daily_fetch_absent_on_errors
    (resp : String → String → FetchOutcome) (provider_path : String) :
    (∀ nspace name, pySplitSlash provider_path = [nspace, name] →
      resp nspace name = FetchOutcome.fail →
      get_provider_downloads_daily resp provider_path = none)
    ∧ (∀ nspace name body, pySplitSlash provider_path = [nspace, name] →
      resp nspace name = FetchOutcome.ok body →
      (body.data = none ∨ ∃ dobj, body.data = some dobj ∧ dobj.attributes = none) →
      get_provider_downloads_daily resp provider_path = none)
    ∧ (get_provider_downloads_daily resp provider_path = none
       ∨ ∃ n : Int, get_provider_downloads_daily resp provider_path = some ⟨n⟩) := by
  refine ⟨?_, ?_, ?_⟩
  · intro nspace name hsplit hfail
    simp [get_provider_downloads_daily, hsplit, hfail]
  · intro nspace name body hsplit hok hshape
    rcases hshape with hnone | ⟨dobj, hdobj, hattrs⟩
    · simp [get_provider_downloads_daily, hsplit, hok, hnone]
    · simp [get_provider_downloads_daily, hsplit, hok, hdobj, hattrs]
  · cases h : get_provider_downloads_daily resp provider_path with
    | none => exact Or.inl rfl
    | some d => exact Or.inr ⟨d.downloads, rfl⟩

/-- C5 witness: a failing request for `hashicorp/aws` yields `None`. -/
theorem C5_witness :
    get_provider_downloads_daily (fun _ _ => FetchOutcome.fail) "hashicorp/aws" = none :=
  (C5_daily_fetch_absent_on_errors (fun _ _ => FetchOutcome.fail) "hashicorp/aws").1
    "hashicorp" "aws" pySplitSlash_hashicorp_aws rfl

/-- C6: the full-crawl per-item extraction returns `None` (and does not raise)
for every raw item lacking `attributes` or lacking `id`, and the report over
the remaining items is unaffected: a malformed item in the middle of the crawl
contributes nothing and the rest is processed as if it were absent. -/
theorem C6_extract_absent_on_malformed :
    (∀ item : RawItem, item.attributes = none → get_provider_downloads_full item = none)
    ∧ (∀ item : RawItem, item.id = none → get_provider_downloads_full item = none)
    ∧ (∀ (xs ys : List RawItem) (bad : RawItem),
        get_provider_downloads_full bad = none →
        generate_report_full (xs ++ bad :: ys)
          = generate_report_full xs ++ generate_report_full ys) := by
  refine ⟨?_, ?_, ?_⟩
  · intro item h
    obtain ⟨oid, oattrs⟩ := item
    cases oattrs with
    | some a => exact Option.noConfusion h
    | none => cases oid <;> rfl
  · intro item h
    obtain ⟨oid, oattrs⟩ := item
    cases oid with
    | some i => exact Option.noConfusion h
    | none => cases oattrs <;> rfl
  · intro xs ys bad h
    simp [generate_report_full, List.filterMap_append, List.filterMap_cons, h]

/-- C6 witness: a crawl containing a malformed item (no `attributes`) between
well-formed items produces the same report as the crawl without it. -/
theorem C6_witness :
    generate_report_full
      [⟨some "g", some ⟨some "hashicorp", some "aws", some 3, none, none, none, none⟩⟩,
       ⟨some "bad", none⟩]
      = generate_report_full
          [⟨some "g", some ⟨some "hashicorp", some "aws", some 3, none, none, none, none⟩⟩]
        ++ generate_report_full [] :=
  C6_extract_absent_on_malformed.2.2
    [⟨some "g", some ⟨some "hashicorp", some "aws", some 3, none, none, none, none⟩⟩]
    [] ⟨some "bad", none⟩ rfl

/-- C7: in both variants a missing `downloads` key defaults to the integer `0`:
the full-crawl record's `downloads` and the daily result's `downloads` (hence
the snapshot's `total_downloads`) are `0` when the key is absent, and every
produced record carries a total integer value (never null, by construction of
the embedding types). -/
theorem C7_downloads_default_zero :
    (∀ (item : RawItem) (attrs : FullAttrs) (r : ProviderRecord),
      item.attributes = some attrs → attrs.downloads = none →
      get_provider_downloads_full item = some r → r.downloads = 0)
    ∧ (∀ (item : RawItem) (r : ProviderRecord),
      get_provider_downloads_full item = some r → ∃ n : Int, r.downloads = n)
    ∧ (∀ (resp : String → String → FetchOutcome) (provider_path nspace name : String)
        (body : DailyBody) (dobj : DataObj) (attrs : DailyAttrs),
      pySplitSlash provider_path = [nspace, name] →
      resp nspace name = FetchOutcome.ok body →
      body.data = some dobj → dobj.attributes = some attrs → attrs.downloads = none →
      get_provider_downloads_daily resp provider_path = some ⟨0⟩) := by
  refine ⟨?_, ?_, ?_⟩
  · intro item attrs r hattrs hdl hr
    obtain ⟨oid, oattrs⟩ := item
    cases oid with
    | none => exact Option.noConfusion hr
    | some pid =>
        cases oattrs with
        | none => exact Option.noConfusion hr
        | some a =>
            obtain rfl : a = attrs := Option.some.inj hattrs
            obtain rfl := Option.some.inj hr
            simp [hdl]
  · intro item r hr
    exact ⟨r.downloads, rfl⟩
  · intro resp provider_path nspace name body dobj attrs hsplit hok hdobj hattrs hdl
    simp [get_provider_downloads_daily, hsplit, hok, hdobj, hattrs, hdl]

/-- C7 witness: an item whose attributes lack `downloads` produces a record with
`downloads = 0`. -/
theorem C7_witness :
    ({ id := "i", nspace := none, name := none, full_name := "None/None",
       downloads := 0, version := none, published_at := none, tier := none,
       source := none } : ProviderRecord).downloads = 0 :=
  C7_downloads_default_zero.1 ⟨some "i", some ⟨none, none, none, none, none, none, none⟩⟩
    ⟨none, none, none, none, none, none, none⟩ _ rfl rfl rfl

/-- C8: every record produced by the full-crawl extraction satisfies
`full_name = f"{namespace}/{name}"` (with Python's `"None"` rendering for an
absent value), and the two concrete cases of the spec hold:
`{namespace: "hashicorp", name: "aws"}` yields `"hashicorp/aws"` and
`{namespace: None, name: "aws"}` yields `"None/aws"`. -/
theorem C8_full_name_concatenation :
    (∀ (item : RawItem) (r : ProviderRecord),
      get_provider_downloads_full item = some r →
      r.full_name = pyStr r.nspace ++ "/" ++ pyStr r.name)
    ∧ (get_provider_downloads_full
        ⟨some "p1", some ⟨some "hashicorp", some "aws", none, none, none, none, none⟩⟩).map
          (fun r => r.full_name) = some "hashicorp/aws"
    ∧ (get_provider_downloads_full
        ⟨some "p1", some ⟨none, some "aws", none, none, none, none, none⟩⟩).map
          (fun r => r.full_name) = some "None/aws" := by
  refine ⟨?_, by decide, by decide⟩
  intro item r hr
  obtain ⟨oid, oattrs⟩ := item
  cases oid with
  | none => exact Option.noConfusion hr
  | some pid =>
      cases oattrs with
      | none => exact Option.noConfusion hr
      | some a =>
          obtain rfl := Option.some.inj hr
          rfl

/-- C8 witness: the general `full_name` invariant applied to a concrete
extracted record. -/
theorem C8_witness :
    ({ id := "p1", nspace := some "hashicorp", name := some "aws",
       full_name := "hashicorp/aws", downloads := 0, version := none,
       published_at := none, tier := none, source := none } : ProviderRecord).full_name
      = pyStr (some "hashicorp") ++ "/" ++ pyStr (some "aws") :=
  C8_full_name_concatenation.1
    ⟨some "p1", some ⟨some "hashicorp", some "aws", none, none, none, none, none⟩⟩
    _ rfl

end TFReg
